import Mathlib

/-!
Verification of the error-annotation utility (`src/src/exception/__init__.py`)
and the configuration loader (`src/constants/__init__.py`) of the
Vehicle-Insurance repository, as a shallow embedding in Lean.

The traceback state reported by `sys.exc_info()` is modelled as an
`Option Frame` (either no active traceback, or the most recent frame with its
file name and line number).  The process-wide logging sink is modelled as a
list of records threaded through each call; a second embedding models the sink
as a fallible call, to reason about sink failures.
-/

/-- A Python value, represented by the result of its text conversion str(v). -/
structure PyValue where
  str : String
deriving DecidableEq

/-- The most recent traceback frame: tb_frame.f_code.co_filename and tb_lineno. -/
structure Frame where
  co_filename : String
  tb_lineno : Nat
deriving DecidableEq

/-- Severity levels of the logging sink. -/
inductive Severity where
  | debug
  | info
  | warning
  | error
deriving DecidableEq

/-- One record emitted to the logging sink. -/
structure LogRecord where
  severity : Severity
  msg : String
deriving DecidableEq

/-- The f-string of line 23 of src/src/exception/__init__.py: the formatted
message built from the frame's file name, its line number, and the stringified
error. -/
def formatMsg (error : String) (fr : Frame) : String :=
  "Error occurred in python script: [" ++ fr.co_filename ++ "] at line number [" ++
    toString fr.tb_lineno ++ "]: " ++ error

/-- Embedding of error_message_detail (src/src/exception/__init__.py, lines
16-28).  If no traceback is active (exc_tb is None) it returns str(error)
unchanged, without touching the logging sink; otherwise it builds the formatted
message from the frame, logs it at error severity, and returns it.  The sink is
the list of records threaded through the call. -/
def error_message_detail (error : String) (exc_tb : Option Frame)
    (log : List LogRecord) : String × List LogRecord :=
  match exc_tb with
  | none => (error, log)
  | some tb =>
    let error_message := formatMsg error tb
    (error_message, log ++ [⟨Severity.error, error_message⟩])

/-- Embedding of error_message_detail with the logging sink modelled as a call
that can fail.  The source does not guard the call to logging.error, so a
failure raised by the sink propagates out of the function (Except.error),
instead of the formatted message being returned. -/
def error_message_detail_fallible (sink : String → Except String Unit)
    (error : String) (exc_tb : Option Frame) : Except String String :=
  match exc_tb with
  | none => Except.ok error
  | some tb =>
    let error_message := formatMsg error tb
    match sink error_message with
    | Except.ok _ => Except.ok error_message
    | Except.error e => Except.error e

/-- The CustomException object: `args` is the argument tuple held by the base
Exception class, `error_message` the formatted message stored by __init__. -/
structure CustomException where
  args : List String
  error_message : String
deriving DecidableEq

/-- Embedding of CustomException.__init__ (lines 37-52): converts the incoming
value to a string, passes that string to the base Exception constructor (the
`args` tuple), and stores the result of error_message_detail in the
`error_message` field.  Returns the object together with the updated sink. -/
def mkCustomException (error_message0 : PyValue) (exc_tb : Option Frame)
    (log : List LogRecord) : CustomException × List LogRecord :=
  let error_message := error_message0.str
  let r := error_message_detail error_message exc_tb log
  ({ args := [error_message], error_message := r.1 }, r.2)

/-- Embedding of CustomException.__str__ (lines 54-61): the text conversion of
the object returns its `error_message` field. -/
def CustomException.str (e : CustomException) : String :=
  e.error_message

/-- An environment: a partial map from variable names to values, as read by
os.getenv. -/
def Env : Type := String → Option String

/-- Embedding of line 8 of src/constants/__init__.py: os.getenv("MONGODB_URLX")
with no default. -/
def MONGODB_URL (env : Env) : Option String :=
  env "MONGODB_URLX"

/-- Embedding of line 11: os.getenv("AWS_ACCESS_KEY_ID") with no default. -/
def AWS_ACCESS_KEY_ID (env : Env) : Option String :=
  env "AWS_ACCESS_KEY_ID"

/-- Embedding of line 12: os.getenv("AWS_SECRET_ACCESS_KEY") with no default. -/
def AWS_SECRET_ACCESS_KEY (env : Env) : Option String :=
  env "AWS_SECRET_ACCESS_KEY"

/-- Embedding of line 15: os.getenv("APP_HOST", "0.0.0.0"). -/
def APP_HOST (env : Env) : String :=
  (env "APP_HOST").getD "0.0.0.0"

/-- The numeric value of a list of decimal digit characters. -/
def digitsVal (cs : List Char) : Nat :=
  cs.foldl (fun a c => 10 * a + (c.toNat - 48)) 0

/-- Whitespace as stripped by Python's int() within the ASCII range:
codepoints 0x09-0x0d, 0x1c-0x1f and 0x20. -/
def pySpace (c : Char) : Bool :=
  (9 ≤ c.toNat && c.toNat ≤ 13) || (28 ≤ c.toNat && c.toNat ≤ 31) || c.toNat = 32

/-- Removes leading and trailing whitespace from a list of characters, as
int() does before parsing. -/
def stripWS (cs : List Char) : List Char :=
  ((cs.dropWhile (fun c => pySpace c)).reverse.dropWhile (fun c => pySpace c)).reverse

/-- Checks the tail of a PEP 515 digit run: each underscore must be single and
followed by a digit, every other character must be a digit. -/
def digitsGroupedAux : List Char → Bool
  | [] => true
  | '_' :: [] => false
  | '_' :: d :: rest => d.isDigit && digitsGroupedAux rest
  | c :: rest => c.isDigit && digitsGroupedAux rest

/-- A PEP 515 grouped decimal-digit run, as accepted by Python's int():
non-empty, starting with a digit, with single underscores allowed only between
digits (no leading, trailing or doubled underscore). -/
def digitsGrouped (cs : List Char) : Bool :=
  match cs with
  | [] => false
  | c :: _ => c.isDigit && digitsGroupedAux cs

/-- Python's int() conversion of a string to a base-10 integer, modelled
exactly over ASCII text (Python additionally accepts Unicode decimal digits
and strips Unicode whitespace outside the ASCII range, which the environment
values considered here do not use): surrounding whitespace is stripped, an
optional single sign is followed by decimal digits with PEP 515 underscore
grouping, and underscores are ignored when computing the value; anything else
raises ValueError, modelled as none. -/
def pyInt (s : String) : Option Int :=
  match stripWS s.toList with
  | [] => none
  | c :: rest =>
    if c = '+' then
      if digitsGrouped rest then
        some (digitsVal (rest.filter (fun x => x ≠ '_'))) else none
    else if c = '-' then
      if digitsGrouped rest then
        some (-(digitsVal (rest.filter (fun x => x ≠ '_')) : Int)) else none
    else
      if digitsGrouped (c :: rest) then
        some (digitsVal ((c :: rest).filter (fun x => x ≠ '_'))) else none

/-- Embedding of line 16: int(os.getenv("APP_PORT", 5000)).  When the variable
is absent the default is the integer 5000 (int(5000) = 5000); when it is
present, int() either parses it or raises ValueError at import time, modelled
as Except.error carrying the ValueError message. -/
def APP_PORT (env : Env) : Except String Int :=
  match env "APP_PORT" with
  | none => Except.ok 5000
  | some s =>
    match pyInt s with
    | some n => Except.ok n
    | none => Except.error ("invalid literal for int with base 10: " ++ s)

/-- The length of the formatted message is the sum of the lengths of its six
pieces. -/
theorem formatMsg_length (m : String) (fr : Frame) :
    (formatMsg m fr).length =
      ("Error occurred in python script: [" : String).length +
        fr.co_filename.length + ("] at line number [" : String).length +
        (toString fr.tb_lineno).length + ("]: " : String).length + m.length := by
  simp [formatMsg, String.length_append]

/-- The formatted message is never the empty string. -/
theorem formatMsg_ne_empty (m : String) (fr : Frame) : formatMsg m fr ≠ "" := by
  intro h
  have hl := congrArg String.length h
  rw [formatMsg_length] at hl
  have h0 : ("" : String).length = 0 := rfl
  have h1 : 0 < ("Error occurred in python script: [" : String).length := by decide
  omega

/-- The formatted message always differs from the original message. -/
theorem formatMsg_ne_original (m : String) (fr : Frame) : formatMsg m fr ≠ m := by
  intro h
  have hl := congrArg String.length h
  rw [formatMsg_length] at hl
  have h1 : 0 < ("Error occurred in python script: [" : String).length := by decide
  omega

/-- C1 counterexample: with an active trace reporting frame ("a.txt", 42) and
message "x", the text form of the annotated error is not the string
"Error occurred in script: [a.txt] at line number [42]: x" claimed by the
spec: the code writes the label "python script", not "script". -/
theorem C1_counterexample :
    (mkCustomException ⟨"x"⟩ (some ⟨"a.txt", 42⟩) []).1.str ≠
      "Error occurred in script: [a.txt] at line number [42]: x" := by
  decide

/-- C1 (amended): for every text input m, when the context provider reports an
active trace with frame (file, line), the annotated error's text form is
exactly "Error occurred in python script: [" ++ file ++
"] at line number [" ++ line ++ "]: " ++ m. -/
theorem C1_annotate_format (m file : String) (line : Nat) (log : List LogRecord) :
    (mkCustomException ⟨m⟩ (some ⟨file, line⟩) log).1.str =
      "Error occurred in python script: [" ++ file ++ "] at line number [" ++
        toString line ++ "]: " ++ m := rfl

/-- C2: for every text input m, when no trace is active the annotated error's
text form equals exactly m, with no location added. -/
theorem C2_no_trace_text (m : String) (log : List LogRecord) :
    (mkCustomException ⟨m⟩ none log).1.str = m := rfl

/-- C3 counterexample: an annotate call with no active trace emits no record at
all to the logging sink, refuting "exactly one error-severity record per call
for every trace state". -/
theorem C3_counterexample :
    (mkCustomException ⟨"x"⟩ none []).2.length ≠ 1 := by
  decide

/-- C3 (amended): when a trace is active, exactly one error-severity record is
appended to the sink, and its text equals the resulting formattedMessage; when
no trace is active, no record is emitted. -/
theorem C3_logging (m : String) (fr : Frame) (log : List LogRecord) :
    (mkCustomException ⟨m⟩ (some fr) log).2 =
      log ++ [⟨Severity.error, (mkCustomException ⟨m⟩ (some fr) log).1.str⟩] ∧
    (mkCustomException ⟨m⟩ none log).2 = log :=
  ⟨rfl, rfl⟩

/-- C4 counterexample: with an active trace, a sink that fails makes the
annotation operation itself fail, refuting "a logging failure never propagates
out of annotate". -/
theorem C4_counterexample :
    error_message_detail_fallible (fun _ => Except.error "sink failure") "x"
      (some ⟨"a.txt", 42⟩) = Except.error "sink failure" := rfl

/-- C4 (amended): the source does not guard the logging call, so when a trace
is active and the logging sink fails on the formatted message, that failure
propagates out of the annotation operation instead of the annotated error being
returned; only when no trace is active is the sink never reached. -/
theorem C4_sink_failure (sink : String → Except String Unit) (m e : String)
    (fr : Frame) (hfail : sink (formatMsg m fr) = Except.error e) :
    error_message_detail_fallible sink m (some fr) = Except.error e ∧
    error_message_detail_fallible sink m none = Except.ok m := by
  refine ⟨?_, rfl⟩
  simp only [error_message_detail_fallible]
  rw [hfail]

/-- C4 witness: instantiating C4_sink_failure at a concrete always-failing
sink, message and frame. -/
theorem C4_sink_failure_witness :
    error_message_detail_fallible (fun _ => Except.error "boom") "x"
      (some ⟨"a.txt", 42⟩) = Except.error "boom" ∧
    error_message_detail_fallible (fun _ => Except.error "boom") "x" none =
      Except.ok "x" :=
  C4_sink_failure (fun _ => Except.error "boom") "x" "boom" ⟨"a.txt", 42⟩ rfl

/-- C5 counterexample: for the empty original message with no active trace, the
stored formattedMessage is the empty string, refuting "formattedMessage is
always non-empty, including the empty string with no active trace". -/
theorem C5_counterexample :
    (mkCustomException ⟨""⟩ none []).1.error_message = "" := rfl

/-- C5 (amended): formattedMessage is a pure function of the original message
and the trace state fixed at construction — it does not depend on the state of
the logging sink — and it is non-empty whenever a trace is active or the
original message is non-empty (with no trace and an empty original message it
equals that empty message). -/
theorem C5_formatted_invariant (v : PyValue) (tb : Option Frame)
    (log1 log2 : List LogRecord) (h : tb ≠ none ∨ v.str ≠ "") :
    (mkCustomException v tb log1).1.error_message =
      (mkCustomException v tb log2).1.error_message ∧
    (mkCustomException v tb log1).1.error_message ≠ "" := by
  refine ⟨by cases tb <;> rfl, ?_⟩
  cases tb with
  | none =>
    rcases h with h | h
    · exact absurd rfl h
    · exact h
  | some fr => exact formatMsg_ne_empty v.str fr

/-- C5 witness: instantiating C5_formatted_invariant at a concrete value, frame
and two distinct sink states. -/
theorem C5_formatted_invariant_witness :
    (mkCustomException ⟨"x"⟩ (some ⟨"a.txt", 42⟩) []).1.error_message =
      (mkCustomException ⟨"x"⟩ (some ⟨"a.txt", 42⟩)
        [⟨Severity.error, "z"⟩]).1.error_message ∧
    (mkCustomException ⟨"x"⟩ (some ⟨"a.txt", 42⟩) []).1.error_message ≠ "" :=
  C5_formatted_invariant ⟨"x"⟩ (some ⟨"a.txt", 42⟩) [] [⟨Severity.error, "z"⟩]
    (Or.inl (by simp))

/-- C6: annotating twice with identical input and identical trace state yields
the identical formattedMessage both times, even when the second call runs on
the sink state produced by the first: the message holds no counter, timestamp
or other run-varying component. -/
theorem C6_idempotent_format (v : PyValue) (tb : Option Frame)
    (log : List LogRecord) :
    (mkCustomException v tb (mkCustomException v tb log).2).1.error_message =
      (mkCustomException v tb log).1.error_message := by
  cases tb <;> rfl

/-- C7: the text-conversion operation of the annotated error yields exactly the
formattedMessage computed by error_message_detail at construction time. -/
theorem C7_str_eq_formatted (v : PyValue) (tb : Option Frame)
    (log : List LogRecord) :
    (mkCustomException v tb log).1.str =
      (error_message_detail v.str tb log).1 := rfl

/-- C8: MONGODB_URLX is read with no default, so its absence yields an unset
value rather than an error; APP_HOST defaults to "0.0.0.0" when absent;
APP_PORT is parsed as an integer with default 5000 when absent, a well-formed
value parses to its integer, and a malformed APP_PORT value fails with a parse
error at startup.  The malformed value is constrained to ASCII, the range over
which pyInt models int() exactly, so the proved failure is a failure of the
real loader. -/
theorem C8_config_loader (env envGood envBad : Env) (s t : String) (n : Int)
    (hm : env "MONGODB_URLX" = none) (hh : env "APP_HOST" = none)
    (hp : env "APP_PORT" = none)
    (hgood : envGood "APP_PORT" = some t) (hparse : pyInt t = some n)
    (hbad : envBad "APP_PORT" = some s)
    (hascii : ∀ c ∈ s.toList, c.toNat < 128) (hmal : pyInt s = none) :
    MONGODB_URL env = none ∧ APP_HOST env = "0.0.0.0" ∧
    APP_PORT env = Except.ok 5000 ∧ APP_PORT envGood = Except.ok n ∧
    APP_PORT envBad = Except.error ("invalid literal for int with base 10: " ++ s) := by
  refine ⟨?_, ?_, ?_, ?_, ?_⟩
  · simpa [MONGODB_URL] using hm
  · simp [APP_HOST, hh]
  · simp [APP_PORT, hp]
  · simp [APP_PORT, hgood, hparse]
  · simp [APP_PORT, hbad, hmal]

/-- C8 witness: instantiating C8_config_loader at the empty environment, at an
environment whose APP_PORT is the underscore-grouped string "1_0" that int()
parses to 10, and at one whose APP_PORT is the unparsable ASCII string
"abc". -/
theorem C8_config_loader_witness :
    MONGODB_URL (fun _ => none) = none ∧
    APP_HOST (fun _ => none) = "0.0.0.0" ∧
    APP_PORT (fun _ => none) = Except.ok 5000 ∧
    APP_PORT (fun k => if k = "APP_PORT" then some "1_0" else none) =
      Except.ok 10 ∧
    APP_PORT (fun k => if k = "APP_PORT" then some "abc" else none) =
      Except.error ("invalid literal for int with base 10: " ++ "abc") :=
  C8_config_loader (fun _ => none)
    (fun k => if k = "APP_PORT" then some "1_0" else none)
    (fun k => if k = "APP_PORT" then some "abc" else none) "abc" "1_0" 10
    rfl rfl rfl (by simp) (by decide) (by simp) (by decide) (by decide)

/-- C9: with an active trace whose frame reports an empty file path, the
formatted message still embeds the empty string in the path position, with no
special-casing of the empty path. -/
theorem C9_empty_path (m : String) (line : Nat) (log : List LogRecord) :
    (mkCustomException ⟨m⟩ (some ⟨"", line⟩) log).1.str =
      "Error occurred in python script: [] at line number [" ++
        toString line ++ "]: " ++ m := by
  have h : ("Error occurred in python script: [" ++ "" ++
      "] at line number [" : String) =
      "Error occurred in python script: [] at line number [" := by decide
  show "Error occurred in python script: [" ++ "" ++ "] at line number [" ++
      toString line ++ "]: " ++ m = _
  rw [h]

/-- C10: construction passes the plain stringified original value str(v), not
the formatted message, to the base exception constructor: the base-class
argument tuple holds str(v) while the string form holds the formatted message,
and when a trace is active these two texts differ. -/
theorem C10_base_args (v : PyValue) (tb : Option Frame) (fr : Frame)
    (log : List LogRecord) :
    (mkCustomException v tb log).1.args = [v.str] ∧
    (mkCustomException v (some fr) log).1.str ≠ v.str := by
  refine ⟨by cases tb <;> rfl, ?_⟩
  exact formatMsg_ne_original v.str fr
